import Mathlib

/-!
Verification development for the Greenhouse backend
(`src/python_backend/app.py`).

The pipeline under study is: the telemetry fetcher
(`fetch_apex_readings`, normalization and sorting of the upstream
payload), the background poller with its TTL cache
(`continuous_apex_poller`, `get_cached_apex_or_fetch`), the
derived-field computation (`build_derived_from_reading`), the alert
engine (`get_alerts`) and the history series built by
`get_sensor_analysis`.

Python values appearing in a reading are modelled by `PyVal`; a
reading (a JSON object) is an association list from string keys to
`PyVal`, looked up first-match.  Python `float`s are idealized as
rationals (`ℚ`); `round(x, n)` uses round-half-to-even, as CPython
does.  JSON arrays/objects as field values are not modelled: for
every operation modelled here they behave exactly like `PyVal.none`
(numeric coercion fails, they are none of bool/int/float/str).
-/

/- The Batteries rational-arithmetic primitives are `@[irreducible]`,
which blocks `decide`/`rfl` evaluation of the executable model on
concrete readings; restore the default reducibility for this file. -/
attribute [local semireducible] Rat.mul Rat.add Rat.sub Rat.inv Rat.ofScientific

/-- A Python value as it can appear in an APEX reading: `None`, a
bool, an int, a float (idealized as `ℚ`) or a string. -/
inductive PyVal where
  | none
  | bool (b : Bool)
  | int (n : ℤ)
  | float (q : ℚ)
  | str (s : String)
  deriving Repr, DecidableEq

/-- A reading: a Python dict from field names to values, modelled as
an association list where the first matching key wins. -/
abbrev Reading := List (String × PyVal)

/-- Dict lookup: `r.get(k)` / `r[k]` returning `some`/`none`. -/
def lookupKey (r : Reading) (k : String) : Option PyVal :=
  match r with
  | [] => Option.none
  | (k', v) :: rest => if k' = k then some v else lookupKey rest k

/-- `k in r` membership test. -/
def hasKey (r : Reading) (k : String) : Bool :=
  (lookupKey r k).isSome

/-- Python truthiness of a value (`if v:`). -/
def pyTruthy : PyVal → Bool
  | PyVal.none => false
  | PyVal.bool b => b
  | PyVal.int n => n != 0
  | PyVal.float q => decide (q ≠ 0)
  | PyVal.str s => s ≠ ""

/-- The numeric content of a value for Python arithmetic/comparison:
bools count as 0/1, ints and floats as themselves; `None` and strings
are not numbers. -/
def asNum : PyVal → Option ℚ
  | PyVal.bool b => some (if b then 1 else 0)
  | PyVal.int n => some (n : ℚ)
  | PyVal.float q => some q
  | _ => Option.none

/-- Python `==` restricted to the value shapes we model: numeric
values compare by value across bool/int/float; strings compare only
with strings; `None` only equals `None`; everything else is unequal. -/
def pyEq (a b : PyVal) : Bool :=
  match asNum a, asNum b with
  | some x, some y => decide (x = y)
  | _, _ =>
    match a, b with
    | PyVal.str s, PyVal.str t => s == t
    | PyVal.none, PyVal.none => true
    | _, _ => false

/-- Digit characters to a natural number (`none` when empty or a
non-digit occurs). -/
def digitsToNat : List Char → Option ℕ
  | [] => Option.none
  | cs =>
    if cs.all Char.isDigit then
      some (cs.foldl (fun a c => a * 10 + (c.toNat - 48)) 0)
    else Option.none

/-- Strip leading and trailing whitespace from a character list
(Python `str.strip()`; list-based so that it evaluates by kernel
reduction, unlike `String.trim`). -/
def pyStrip (cs : List Char) : List Char :=
  ((cs.dropWhile Char.isWhitespace).reverse.dropWhile Char.isWhitespace).reverse

/-- Split a character list on a separator character (list-based
`String.splitOn` for single-character separators). -/
def splitOnChar (c : Char) : List Char → List (List Char)
  | [] => [[]]
  | x :: xs =>
    if x = c then [] :: splitOnChar c xs
    else
      match splitOnChar c xs with
      | [] => [[x]]
      | y :: ys => (x :: y) :: ys

/-- Python `float(s)` on a string: optional surrounding whitespace,
optional sign, decimal digits with an optional fractional part
(`"12"`, `"12.5"`, `".5"`, `"5."`).  Exponent notation and the
`inf`/`nan` spellings, which CPython also accepts, are not modelled;
on them this parser fails where CPython would succeed — no claim in
this development depends on such inputs. -/
def parseFloatStr (s : String) : Option ℚ :=
  let cs := pyStrip s.toList
  let signed : ℚ × List Char :=
    match cs with
    | '-' :: rest => (-1, rest)
    | '+' :: rest => (1, rest)
    | _ => (1, cs)
  let sgn := signed.1
  let body := signed.2
  let intPart := body.takeWhile Char.isDigit
  let rest := body.dropWhile Char.isDigit
  match rest with
  | [] =>
    match digitsToNat intPart with
    | some n => some (sgn * n)
    | Option.none => Option.none
  | '.' :: fracPart =>
    if fracPart.all Char.isDigit ∧ (intPart ≠ [] ∨ fracPart ≠ []) then
      let ip : ℕ := (digitsToNat intPart).getD 0
      let fp : ℕ := (digitsToNat fracPart).getD 0
      some (sgn * ((ip : ℚ) + (fp : ℚ) / (10 : ℚ) ^ fracPart.length))
    else Option.none
  | _ => Option.none

/-- Python `float(v)` as used by the `num` helper of
`build_derived_from_reading`: succeeds on bools, ints, floats and
numeric strings; raises (here: `none`) on `None` and malformed
strings. -/
def tryFloat : PyVal → Option ℚ
  | PyVal.none => Option.none
  | PyVal.bool b => some (if b then 1 else 0)
  | PyVal.int n => some (n : ℚ)
  | PyVal.float q => some q
  | PyVal.str s => parseFloatStr s

/-- CPython rounding to an integer: round half to even.
(`Rat.floor` rather than `⌊⌋` keeps the definition kernel-evaluable;
they agree, see `rat_floor_eq_floor`.) -/
def roundHalfEven (q : ℚ) : ℤ :=
  if q - Rat.floor q < 1/2 then Rat.floor q
  else if 1/2 < q - Rat.floor q then Rat.floor q + 1
  else if Rat.floor q % 2 = 0 then Rat.floor q else Rat.floor q + 1

/-- Python `round(x, 1)`. -/
def round1 (q : ℚ) : ℚ := (roundHalfEven (q * 10) : ℚ) / 10

/-- Python `round(x, 0)` (result still a float). -/
def round0 (q : ℚ) : ℚ := (roundHalfEven q : ℚ)

/-- The `num(key, default)` helper inside `build_derived_from_reading`:
`float(r.get(key, default))` under `try/except`, falling back to the
default on any coercion failure.  `default = none` models Python
`None` (on which `float` itself raises, so the fallback is again
`None`). -/
def num (r : Reading) (key : String) (default : Option ℚ) : Option ℚ :=
  match lookupKey r key with
  | some v =>
    match tryFloat v with
    | some q => some q
    | Option.none => default
  | Option.none => default

/-- `num` with a numeric default (in which case it always yields a
number). -/
def numD (r : Reading) (key : String) (d : ℚ) : ℚ :=
  (num r key (some d)).getD d

/-- Temperature derivation: average of the two sensors when both are
present, else whichever is present, else undefined; rounded to one
decimal. -/
def temperature_of (r : Reading) : Option ℚ :=
  match num r "temperature_bmp280" Option.none,
        num r "temperature_dht22" Option.none with
  | some a, some b => some (round1 ((a + b) / 2))
  | some a, Option.none => some (round1 a)
  | Option.none, some b => some (round1 b)
  | Option.none, Option.none => Option.none

/-- Light intensity: raw value if present, else back-converted from
`light_percent` (`percent / 100 * 4095`), else 0; rounded to zero
decimals. -/
def light_of (r : Reading) : ℚ :=
  match num r "light_raw" Option.none with
  | some q => round0 q
  | Option.none =>
    match num r "light_percent" Option.none with
    | some p => round0 (p / 100 * 4095)
    | Option.none => 0

/-- The accepted true-spellings for a string-valued flame indicator
(`v.strip().lower() in ("yes", "y", "true", "1")`). -/
def flameTruthyStr (s : String) : Bool :=
  let t := String.mk ((pyStrip s.toList).map Char.toLower)
  t == "yes" || t == "y" || t == "true" || t == "1"

/-- Flame detection coercion.  `r.get("flame_detected", 0)`: when the
key is absent the default `0` makes the result `false`; a present
bool/int/float value is truthified, a string goes through the
spelling table, and only a value of none of those types (e.g. JSON
null) falls back to thresholding the raw flame reading
(`flame_raw < 2000`, lower raw value = flame present).
In CPython `isinstance(v, (int, float))` also captures bools (bool is
a subclass of int) but `bool(v)` agrees with the dedicated bool
branch, so the result is the same. -/
def flame_detected_of (r : Reading) : Bool :=
  let flame_raw := numD r "flame_raw" 4095
  match (lookupKey r "flame_detected").getD (PyVal.int 0) with
  | PyVal.bool b => b
  | PyVal.int n => n != 0
  | PyVal.float q => decide (q ≠ 0)
  | PyVal.str s => flameTruthyStr s
  | PyVal.none => decide (flame_raw < 2000)

/-- The Derived Snapshot produced by `build_derived_from_reading`.
The duplicate nested dicts `co2_air_quality` and `pressure_altitude`
of the Python dict are omitted: they repeat the `co2_level` /
`air_quality` and `pressure` / `altitude` fields verbatim and no
modelled consumer reads them. -/
structure Derived where
  temperature : Option ℚ
  humidity : ℚ
  co2_level : ℚ
  light : ℚ
  pressure : ℚ
  altitude : ℚ
  soil_moisture : ℤ
  flame_detected : Bool
  flame_status : String
  mq135_drop : ℚ
  mq2_drop : ℚ
  mq7_drop : ℚ
  mq135_baseline : ℚ
  mq2_baseline : ℚ
  mq7_baseline : ℚ
  air_quality : String
  flammable_gas : String
  co_level : String
  timestamp : PyVal
  deriving Repr, DecidableEq

/-- `build_derived_from_reading(r)`: the derived-field computation
over one reading.  `now` stands for the `time.time()` that Python
evaluates for the timestamp fallback (used only when the reading has
neither `timestamp` nor `_ts_num`).  Gas deltas are floored at zero
after rounding; baselines are rounded but not clamped; the CO2
estimate is `400 + mq135_drop * 1.2` (the literal `1.2` idealized as
`6/5`). -/
def build_derived_from_reading (now : ℚ) (r : Reading) : Derived :=
  let mq135_drop := max 0 (round1 (numD r "mq135_drop" 0))
  let mq2_drop := max 0 (round1 (numD r "mq2_drop" 0))
  let mq7_drop := max 0 (round1 (numD r "mq7_drop" 0))
  { temperature := temperature_of r
    humidity := round1 (numD r "humidity" 0)
    co2_level := round1 (400 + mq135_drop * (6/5))
    light := light_of r
    pressure := round1 (numD r "pressure" 0)
    altitude := round1 (numD r "altitude" 0)
    soil_moisture := roundHalfEven (numD r "soil_moisture" 45)
    flame_detected := flame_detected_of r
    flame_status :=
      if flame_detected_of r then "Flame Detected" else "Flame Not Detected"
    mq135_drop := mq135_drop
    mq2_drop := mq2_drop
    mq7_drop := mq7_drop
    mq135_baseline := round1 (numD r "mq135_baseline" 0)
    mq2_baseline := round1 (numD r "mq2_baseline" 0)
    mq7_baseline := round1 (numD r "mq7_baseline" 0)
    air_quality :=
      if mq135_drop ≤ 200 then "Good"
      else if mq135_drop > 500 then "Poor" else "Moderate"
    flammable_gas :=
      if mq2_drop ≤ 300 then "Safe"
      else if mq2_drop > 750 then "High" else "Elevated"
    co_level :=
      if mq7_drop ≤ 300 then "Safe"
      else if mq7_drop > 750 then "High" else "Elevated"
    timestamp :=
      (lookupKey r "timestamp").getD ((lookupKey r "_ts_num").getD (PyVal.float now)) }

/-! ### Smart cache and poller (`_smart_cache`, `continuous_apex_poller`,
`get_cached_apex_or_fetch`, `/api/sensor-data`) -/

/-- The `_smart_cache` state: last successful batch and its capture
time (`datetime.now()`, idealized as rational seconds), both absent at
process start. -/
structure SmartCache where
  data : Option (List Reading)
  timestamp : Option ℚ
  deriving Repr, DecidableEq

/-- Python `f"{age:.0f}"`: format with zero decimals (round half to
even, as CPython formatting does). -/
def fmt_age (age : ℚ) : String := toString (roundHalfEven age)

/-- `get_cached_apex_or_fetch()`: return the cached batch with a
freshness label (`cache_age_Ns` when the age is below 10 seconds,
`cache_stale_Ns` from 10 seconds on), or `(None, "no_data")` when the
poller has never succeeded.  No fetch is performed on read. -/
def get_cached_apex_or_fetch (s : SmartCache) (now : ℚ) :
    Option (List Reading) × String :=
  match s.data, s.timestamp with
  | some d, some t =>
    let age := now - t
    if age < 10 then (some d, "cache_age_" ++ fmt_age age ++ "s")
    else (some d, "cache_stale_" ++ fmt_age age ++ "s")
  | _, _ => (Option.none, "no_data")

/-- One cycle of `continuous_apex_poller`: a non-empty fetch result
replaces both the data and the capture time; an empty one leaves the
cache untouched. -/
def continuous_apex_poller_step (s : SmartCache) (fetched : List Reading)
    (now : ℚ) : SmartCache :=
  if fetched.isEmpty then s
  else { data := some fetched, timestamp := some now }

/-- Outcome of a routed endpoint: a JSON body with status 200 or 503. -/
inductive ApiResult where
  | ok (body : Reading)
  | err503 (body : Reading)
  deriving Repr, DecidableEq

/-- `k.startswith("_")` (list-based so that it evaluates by kernel
reduction, unlike `String.startsWith`). -/
def startsWithUnderscore (s : String) : Bool :=
  match s.data with
  | [] => false
  | c :: _ => c == '_'

/-- The 503 body returned by `/api/sensor-data` when no APEX data is
available yet. -/
def apex_unavailable_body : Reading :=
  [("error", PyVal.str "APEX data not available yet"),
   ("message", PyVal.str "Waiting for APEX to respond. Please wait..."),
   ("_data_source", PyVal.str "none")]

/-- The Derived Snapshot rendered back as entries of the Python dict
returned by `build_derived_from_reading` (the two duplicate nested
dicts omitted, see `Derived`). -/
def derived_dict (d : Derived) : Reading :=
  [("temperature",
    match d.temperature with
    | some q => PyVal.float q
    | Option.none => PyVal.none),
   ("humidity", PyVal.float d.humidity),
   ("co2_level", PyVal.float d.co2_level),
   ("light", PyVal.float d.light),
   ("light_raw", PyVal.float d.light),
   ("pressure", PyVal.float d.pressure),
   ("altitude", PyVal.float d.altitude),
   ("soil_moisture", PyVal.int d.soil_moisture),
   ("flame_detected", PyVal.bool d.flame_detected),
   ("flame_status", PyVal.str d.flame_status),
   ("mq135_drop", PyVal.float d.mq135_drop),
   ("mq2_drop", PyVal.float d.mq2_drop),
   ("mq7_drop", PyVal.float d.mq7_drop),
   ("mq135_baseline", PyVal.float d.mq135_baseline),
   ("mq2_baseline", PyVal.float d.mq2_baseline),
   ("mq7_baseline", PyVal.float d.mq7_baseline),
   ("air_quality", PyVal.str d.air_quality),
   ("flammable_gas", PyVal.str d.flammable_gas),
   ("co_level", PyVal.str d.co_level),
   ("timestamp", d.timestamp)]

/-- `/api/sensor-data` (`get_sensor_data`): read the cache; on data,
merge the latest reading (its underscore keys filtered out) with the
derived snapshot (`{**latest_filtered, **derived}`; derived keys
override, and the `_cache_status` / `_data_source` entries override
everything, hence sit at the front of the association list); on no
data, a 503 error body. -/
def get_sensor_data (s : SmartCache) (now : ℚ) : ApiResult :=
  match get_cached_apex_or_fetch s now with
  | (some (latest :: _), cache_status) =>
    let derived := build_derived_from_reading now latest
    ApiResult.ok
      (("_cache_status", PyVal.str cache_status) ::
       ("_data_source", PyVal.str "apex") ::
       (derived_dict derived ++ latest.filter (fun p => ! startsWithUnderscore p.1)))
  | _ => ApiResult.err503 apex_unavailable_body

/-- Field access on an endpoint outcome, for stating response
properties. -/
def api_field (res : ApiResult) (k : String) : Option PyVal :=
  match res with
  | ApiResult.ok b => lookupKey b k
  | ApiResult.err503 b => lookupKey b k

/-! ### Alert engine (`/api/alerts`, `get_alerts`) -/

/-- One alert.  The human-readable `message` string and the repeated
`timestamp` entry of the Python dict are omitted: no modelled claim
inspects them and the message embeds Python float formatting. -/
structure Alert where
  title : String
  sensor_type : String
  severity : String
  value : PyVal
  unit : String
  sound : Bool
  deriving Repr, DecidableEq

/-- The JSON body of a successful `/api/alerts` evaluation. -/
structure AlertsResponse where
  alerts : List Alert
  alert_count : ℕ
  should_alert : Bool
  deriving Repr, DecidableEq

/-- The temperature-average computation of `get_alerts`:
`(current_data['temperature_bmp280'] + current_data['temperature_dht22']) / 2`
with direct dict indexing (these keys exist only in the raw reading,
never in the derived dict, so the merge resolves them to the raw
values): a missing key raises `KeyError` and a non-numeric pair raises
`TypeError` at `+`/`/`, modelled as `Except.error`. -/
def avg_temp_of (latest : Reading) : Except String ℚ :=
  match lookupKey latest "temperature_bmp280", lookupKey latest "temperature_dht22" with
  | Option.none, _ => Except.error "KeyError: temperature_bmp280"
  | some _, Option.none => Except.error "KeyError: temperature_dht22"
  | some tbv, some tdv =>
    match asNum tbv, asNum tdv with
    | some x, some y => Except.ok ((x + y) / 2)
    | _, _ => Except.error "TypeError: unsupported operand"

/-- The alert evaluation of `get_alerts` over the latest cached
reading, given `current_data = {**latest, **build_derived_from_reading(latest)}`.
Rules in source order: flame, carbon monoxide (mq7), flammable gas
(mq2), temperature, humidity, air quality (mq135).  For the keys that
`build_derived_from_reading` always produces — `flame_detected`,
`mq7_drop`, `mq2_drop`, `humidity`, `mq135_drop` — the merge resolves
`current_data.get(...)` to the derived value, used directly here.
The flame rule compares that derived *boolean* with the *string*
`'Yes'` (`pyEq`), exactly as the source does.  An uncaught exception
from the temperature average (`avg_temp_of`) discards the whole
evaluation, exactly as the Python exception discards the alerts
already appended, so checking it first is behavior-preserving. -/
def get_alerts (now : ℚ) (latest : Reading) : Except String AlertsResponse :=
  let d := build_derived_from_reading now latest
  match avg_temp_of latest with
  | Except.error e => Except.error e
  | Except.ok avg_temp =>
    let flame_alerts : List Alert :=
      if pyEq (PyVal.bool d.flame_detected) (PyVal.str "Yes") then
        [{ title := "🔥 FIRE HAZARD", sensor_type := "flame",
           severity := "critical",
           value := (lookupKey latest "flame_raw").getD (PyVal.int 0),
           unit := "raw", sound := true }]
      else []
    let mq7 := d.mq7_drop
    let co_alerts : List Alert :=
      if mq7 > 750 then
        [{ title := "⚠️ CO CRITICAL", sensor_type := "carbon_monoxide",
           severity := "critical", value := PyVal.float mq7,
           unit := "ppm", sound := true }]
      else if mq7 > 300 then
        [{ title := "CO Elevated", sensor_type := "carbon_monoxide",
           severity := "high", value := PyVal.float mq7,
           unit := "ppm", sound := true }]
      else []
    let mq2 := d.mq2_drop
    let gas_alerts : List Alert :=
      if mq2 > 750 then
        [{ title := "⚠️ GAS CRITICAL", sensor_type := "flammable_gas",
           severity := "critical", value := PyVal.float mq2,
           unit := "ppm", sound := true }]
      else if mq2 > 300 then
        [{ title := "Gas Elevated", sensor_type := "flammable_gas",
           severity := "high", value := PyVal.float mq2,
           unit := "ppm", sound := true }]
      else []
    let temp_alerts : List Alert :=
      if avg_temp < 18 then
        [{ title := "Temperature Critical Low", sensor_type := "temperature",
           severity := "high", value := PyVal.float avg_temp,
           unit := "°C", sound := true }]
      else if avg_temp > 30 then
        [{ title := "Temperature Critical High", sensor_type := "temperature",
           severity := "high", value := PyVal.float avg_temp,
           unit := "°C", sound := true }]
      else if avg_temp < 20 ∨ avg_temp > 27 then
        [{ title := "Temperature Outside Optimal", sensor_type := "temperature",
           severity := "medium", value := PyVal.float avg_temp,
           unit := "°C", sound := false }]
      else []
    let humidity := d.humidity
    let humidity_alerts : List Alert :=
      if humidity < 45 then
        [{ title := "Humidity Critical Low", sensor_type := "humidity",
           severity := "high", value := PyVal.float humidity,
           unit := "%", sound := true }]
      else if humidity > 80 then
        [{ title := "Humidity Critical High", sensor_type := "humidity",
           severity := "high", value := PyVal.float humidity,
           unit := "%", sound := true }]
      else if humidity < 45 ∨ humidity > 70 then
        [{ title := "Humidity Outside Optimal", sensor_type := "humidity",
           severity := "medium", value := PyVal.float humidity,
           unit := "%", sound := false }]
      else []
    let mq135 := d.mq135_drop
    let air_alerts : List Alert :=
      if mq135 > 500 then
        [{ title := "Air Quality Poor", sensor_type := "air_quality",
           severity := "medium", value := PyVal.float mq135,
           unit := "ppm", sound := true }]
      else if mq135 > 200 then
        [{ title := "Air Quality Moderate", sensor_type := "air_quality",
           severity := "low", value := PyVal.float mq135,
           unit := "ppm", sound := false }]
      else []
    let alerts := flame_alerts ++ co_alerts ++ gas_alerts ++ temp_alerts ++
                  humidity_alerts ++ air_alerts
    Except.ok { alerts := alerts, alert_count := alerts.length,
                should_alert := alerts.any (fun a => a.sound) }

/-! ### Telemetry fetcher: normalization and sorting
(`fetch_apex_readings`, lines 250-284) -/

/-- Gregorian leap year. -/
def is_leap (y : ℕ) : Bool :=
  (y % 4 == 0 && y % 100 != 0) || y % 400 == 0

/-- Days in a month. -/
def days_in_month (y m : ℕ) : ℕ :=
  match m with
  | 1 => 31
  | 2 => if is_leap y then 29 else 28
  | 3 => 31
  | 4 => 30
  | 5 => 31
  | 6 => 30
  | 7 => 31
  | 8 => 31
  | 9 => 30
  | 10 => 31
  | 11 => 30
  | 12 => 31
  | _ => 0

/-- Days in year `y` strictly before month `m`. -/
def days_before_month (y m : ℕ) : ℕ :=
  let base : ℕ :=
    match m with
    | 1 => 0
    | 2 => 31
    | 3 => 59
    | 4 => 90
    | 5 => 120
    | 6 => 151
    | 7 => 181
    | 8 => 212
    | 9 => 243
    | 10 => 273
    | 11 => 304
    | _ => 334
  base + (if is_leap y ∧ 2 < m then 1 else 0)

/-- Days from 1970-01-01 to the civil date `y-m-d` (proleptic
Gregorian; `719162` is the day count from year 1 to 1970). -/
def days_from_epoch (y m d : ℕ) : ℤ :=
  (365 * ((y : ℤ) - 1) + ((y - 1) / 4 : ℕ) - ((y - 1) / 100 : ℕ) +
   ((y - 1) / 400 : ℕ) + (days_before_month y m : ℤ) + ((d : ℤ) - 1)) - 719162

/-- `datetime.strptime(s.replace('Z', ''), "%Y-%m-%dT%H:%M:%S.%f").timestamp()`:
parse the APEX ISO timestamp (fractional seconds mandatory, every
`'Z'` removed first) and convert to epoch seconds.  A naive
`datetime.timestamp()` interprets the wall time in the process's local
timezone; `tz` is that UTC offset in seconds (0 for a UTC host).
Leap seconds (second values 60/61, accepted by `strptime`) are not
modelled. -/
def parse_apex_timestamp (tz : ℚ) (s : String) : Option ℚ :=
  let s2 := s.toList.filter (fun c => c ≠ 'Z')
  match splitOnChar 'T' s2 with
  | [datePart, timePart] =>
    match splitOnChar '-' datePart with
    | [ys, ms, ds] =>
      match splitOnChar ':' timePart with
      | [hs, mins, secPart] =>
        match splitOnChar '.' secPart with
        | [ss, fs] => do
          let y ← digitsToNat ys
          let m ← digitsToNat ms
          let d ← digitsToNat ds
          let h ← digitsToNat hs
          let mi ← digitsToNat mins
          let sec ← digitsToNat ss
          let frac ← digitsToNat fs
          if ys.length ≤ 4 ∧ ms.length ≤ 2 ∧ ds.length ≤ 2 ∧
             hs.length ≤ 2 ∧ mins.length ≤ 2 ∧ ss.length ≤ 2 ∧
             fs.length ≤ 6 ∧
             1 ≤ m ∧ m ≤ 12 ∧ 1 ≤ d ∧ d ≤ days_in_month y m ∧
             h ≤ 23 ∧ mi ≤ 59 ∧ sec ≤ 59 then
            some (((days_from_epoch y m d : ℚ) * 86400 +
                   (h : ℚ) * 3600 + (mi : ℚ) * 60 + (sec : ℚ) +
                   (frac : ℚ) / (10 : ℚ) ^ fs.length) - tz)
          else Option.none
        | _ => Option.none
      | _ => Option.none
    | _ => Option.none
  | _ => Option.none

/-- Resolve the timestamp of the record at position `idx`: a truthy
string `timestamp_reading` is parsed; on parse failure (also
`AttributeError` when the field is truthy but not a string) or when
the field is absent/falsy, synthesize `now - idx * 10`. -/
def resolve_timestamp (tz now : ℚ) (idx : ℕ) (it : Reading) : ℚ :=
  let v := (lookupKey it "timestamp_reading").getD (PyVal.str "")
  if pyTruthy v then
    match v with
    | PyVal.str s =>
      match parse_apex_timestamp tz s with
      | some ts => ts
      | Option.none => now - idx * 10
    | _ => now - idx * 10
  else now - idx * 10

/-- Normalize one record: set `timestamp`, `_ts_num` (the sort key,
same value) and `_pull_time` on a copy of the record; prepending
models the dict update (lookup takes the first match). -/
def normalize_reading (tz now : ℚ) (idx : ℕ) (it : Reading) : Reading :=
  let ts := resolve_timestamp tz now idx it
  ("timestamp", PyVal.float ts) :: ("_ts_num", PyVal.float ts) ::
  ("_pull_time", PyVal.float now) :: it

/-- The sort key `x.get("_ts_num", 0)` (after normalization this is
always the resolved numeric timestamp; the numeric default covers the
unreachable non-numeric case). -/
def sort_key (r : Reading) : ℚ :=
  match lookupKey r "_ts_num" with
  | some v => (asNum v).getD 0
  | Option.none => 0

/-- Newest-first order on normalized readings
(`sort(key=..., reverse=True)`). -/
def ts_desc (a b : Reading) : Prop := sort_key b ≤ sort_key a

instance : DecidableRel ts_desc :=
  fun a b => (inferInstance : Decidable (sort_key b ≤ sort_key a))

instance : IsTotal Reading ts_desc :=
  ⟨fun a b => le_total (sort_key b) (sort_key a)⟩

instance : IsTrans Reading ts_desc :=
  ⟨fun _ _ _ hab hbc => le_trans hbc hab⟩

/-- The normalization-and-sort phase of `fetch_apex_readings` applied
to the successfully parsed list of records: resolve every timestamp,
then sort descending (newest first).  Both CPython's `list.sort` and
`List.insertionSort` are stable, so they agree on ties. -/
def fetch_apex_readings_core (tz now : ℚ) (items : List Reading) : List Reading :=
  let normalized := items.enum.map (fun p => normalize_reading tz now p.1 p.2)
  List.insertionSort ts_desc normalized

/-! ### History series (`/api/sensor-analysis/<sensor_type>`,
`get_sensor_analysis`) -/

/-- `extract_value_for_sensor(reading, key)`: sensor-specific numeric
extraction, `None` on absence or coercion failure (the body is wrapped
in `try/except: return None`). -/
def temp_pair_fallback (reading : Reading) : Option ℚ :=
  let b1 := (lookupKey reading "temperature_bmp280").getD PyVal.none
  let b2 := (lookupKey reading "temperature_dht22").getD PyVal.none
  if b1 ≠ PyVal.none ∧ b2 ≠ PyVal.none then
    match tryFloat b1, tryFloat b2 with
    | some x, some y => some ((x + y) / 2)
    | _, _ => Option.none
  else if b1 ≠ PyVal.none then tryFloat b1
  else if b2 ≠ PyVal.none then tryFloat b2
  else Option.none

/-- See `temp_pair_fallback`; `reading.get(k)` conflates an absent key
with a stored `None`, exactly as the source's `is not None` tests do. -/
def extract_value_for_sensor (reading : Reading) (key : String) : Option ℚ :=
  if key = "temperature" then
    match (lookupKey reading "temperature").getD PyVal.none with
    | PyVal.none => temp_pair_fallback reading
    | v => tryFloat v
  else if key = "light" then
    match (lookupKey reading "light_raw").getD PyVal.none with
    | PyVal.none =>
      match (lookupKey reading "light").getD PyVal.none with
      | PyVal.none =>
        match (lookupKey reading "light_percent").getD PyVal.none with
        | PyVal.none => Option.none
        | v => (tryFloat v).map (fun p => p * 4095 / 100)
      | v => tryFloat v
    | v => tryFloat v
  else
    if hasKey reading key then tryFloat ((lookupKey reading key).getD PyVal.none)
    else if hasKey reading (key ++ "_raw") then
      tryFloat ((lookupKey reading (key ++ "_raw")).getD PyVal.none)
    else Option.none

/-- One point of the history series: the extracted value (with the
`float(r.get(key, 0.0))`-or-0.0 fallback) and the reading's stored
timestamp.  Python keeps the raw timestamp value and later sorts by
it, raising `TypeError` when timestamps are not mutually comparable;
we model the numeric-timestamp case (the one produced by the fetcher)
and return `none` otherwise. -/
def history_point_of (now : ℚ) (key : String) (r : Reading) : Option (ℚ × ℚ) :=
  let ts := (lookupKey r "timestamp").getD ((lookupKey r "_ts_num").getD (PyVal.float now))
  let val : ℚ :=
    match extract_value_for_sensor r key with
    | some v => v
    | Option.none =>
      match lookupKey r key with
      | some v => (tryFloat v).getD 0
      | Option.none => 0
  (asNum ts).map (fun t => (val, t))

/-- `data_points.get(time_range, 30)`. -/
def data_points_for (time_range : String) : ℕ :=
  if time_range = "seconds" then 60
  else if time_range = "minutes" then 60
  else if time_range = "hours" then 24
  else if time_range = "days" then 30
  else if time_range = "weeks" then 52
  else if time_range = "months" then 12
  else if time_range = "years" then 5
  else 30

/-- Oldest-first order on history points (sort by `x['timestamp']`). -/
def hist_asc (p q : ℚ × ℚ) : Prop := p.2 ≤ q.2

instance : DecidableRel hist_asc :=
  fun p q => (inferInstance : Decidable (p.2 ≤ q.2))

instance : IsTotal (ℚ × ℚ) hist_asc := ⟨fun p q => le_total p.2 q.2⟩

instance : IsTrans (ℚ × ℚ) hist_asc :=
  ⟨fun _ _ _ h1 h2 => le_trans h1 h2⟩

/-- The historical-series computation of `get_sensor_analysis`: one
point per reading of `readings[0:num_points]`, sorted ascending by
timestamp; when fewer than two points result, replace the series by
two synthetic points carrying the current value (or `0.0` when it is
undefined) at `now - 10` and `now`.  `current_value` is the
endpoint's already-computed current value for the sensor. -/
def get_sensor_analysis_history (now : ℚ) (key time_range : String)
    (readings : List Reading) (current_value : Option ℚ) :
    Option (List (ℚ × ℚ)) :=
  let historical_raw := readings.take (data_points_for time_range)
  (historical_raw.mapM (history_point_of now key)).map (fun pts =>
    if (List.insertionSort hist_asc pts).length < 2 then
      [(current_value.getD 0, now - 10), (current_value.getD 0, now)]
    else List.insertionSort hist_asc pts)

/-! ### Helper lemmas -/

/-- `Rat.floor` is the `FloorRing` floor. -/
lemma rat_floor_eq_floor (q : ℚ) : Rat.floor q = ⌊q⌋ := by
  rw [Rat.floor_def', Rat.floor_def]

/-- Rounding a non-positive rational to an integer stays non-positive. -/
lemma roundHalfEven_nonpos {q : ℚ} (h : q ≤ 0) : roundHalfEven q ≤ 0 := by
  unfold roundHalfEven
  rw [rat_floor_eq_floor]
  have hf : ⌊q⌋ ≤ 0 := by
    have := Int.floor_le_floor h
    simpa using this
  split_ifs with h1 h2 h3
  · exact hf
  · have hq : (⌊q⌋ : ℚ) < -1/2 := by
      have := Int.floor_le q
      linarith
    have : ⌊q⌋ < 0 := by
      have h0 : (⌊q⌋ : ℚ) < 0 := lt_trans hq (by norm_num)
      exact_mod_cast h0
    omega
  · exact hf
  · have heq : q - ⌊q⌋ = 1/2 := le_antisymm (not_lt.mp h2) (not_lt.mp h1)
    have hq : (⌊q⌋ : ℚ) ≤ -1/2 := by linarith
    have : ⌊q⌋ < 0 := by
      have h0 : (⌊q⌋ : ℚ) < 0 := lt_of_le_of_lt hq (by norm_num)
      exact_mod_cast h0
    omega

/-- Rounding a non-negative rational to an integer stays non-negative. -/
lemma roundHalfEven_nonneg {q : ℚ} (h : 0 ≤ q) : 0 ≤ roundHalfEven q := by
  unfold roundHalfEven
  rw [rat_floor_eq_floor]
  have hf : 0 ≤ ⌊q⌋ := Int.floor_nonneg.mpr h
  split_ifs <;> omega

/-- `round(x, 1)` of a non-positive value is non-positive. -/
lemma round1_nonpos {q : ℚ} (h : q ≤ 0) : round1 q ≤ 0 := by
  unfold round1
  have h10 : q * 10 ≤ 0 := by linarith
  have := roundHalfEven_nonpos h10
  have hc : ((roundHalfEven (q * 10) : ℤ) : ℚ) ≤ 0 := by exact_mod_cast this
  linarith

/-- `round(x, 1)` of a non-negative value is non-negative. -/
lemma round1_nonneg {q : ℚ} (h : 0 ≤ q) : 0 ≤ round1 q := by
  unfold round1
  have h10 : 0 ≤ q * 10 := by linarith
  have := roundHalfEven_nonneg h10
  have hc : (0 : ℚ) ≤ ((roundHalfEven (q * 10) : ℤ) : ℚ) := by exact_mod_cast this
  linarith

/-- When the stored value coerces to a number, `num` ignores its
default. -/
lemma numD_of_coerced {r : Reading} {k : String} {x : ℚ} (d : ℚ)
    (h : (lookupKey r k).bind tryFloat = some x) : numD r k d = x := by
  rcases Option.bind_eq_some.mp h with ⟨v, hv, hx⟩
  simp [numD, num, hv, hx]

/-- The clamped-and-rounded gas delta: non-positive coerced inputs
give exactly 0, positive ones the rounded input. -/
lemma gas_drop_clamp {r : Reading} {k : String} (x : ℚ)
    (h : (lookupKey r k).bind tryFloat = some x) :
    (x ≤ 0 → max 0 (round1 (numD r k 0)) = 0) ∧
    (0 < x → max 0 (round1 (numD r k 0)) = round1 x) := by
  rw [numD_of_coerced 0 h]
  constructor
  · intro hx
    exact max_eq_left (round1_nonpos hx)
  · intro hx
    exact max_eq_right (round1_nonneg hx.le)

/-- A Python bool never `==` a string. -/
lemma pyEq_bool_str (b : Bool) (s : String) :
    pyEq (PyVal.bool b) (PyVal.str s) = false := by
  cases b <;> rfl

/-- `Option.mapM` preserves length. -/
lemma mapM_option_length {α β : Type} {f : α → Option β} :
    ∀ {l : List α} {out : List β}, l.mapM f = some out → out.length = l.length := by
  intro l
  induction l with
  | nil =>
    intro out h
    simp only [List.mapM_nil, pure, Option.some.injEq] at h
    simp [← h]
  | cons a l ih =>
    intro out h
    rw [List.mapM_cons] at h
    rcases Option.bind_eq_some.mp h with ⟨b, hb, h2⟩
    rcases Option.bind_eq_some.mp h2 with ⟨bs, hbs, h3⟩
    simp only [pure, Option.some.injEq] at h3
    subst h3
    simp [ih hbs]

/-- Every requested range resolves to at least two data points. -/
lemma two_le_data_points (time_range : String) : 2 ≤ data_points_for time_range := by
  unfold data_points_for
  split_ifs <;> norm_num

/-- The derived snapshot does not depend on the clock when the reading
carries a `timestamp` key (the clock only feeds the timestamp
fallback). -/
lemma build_derived_now_independent {r : Reading} {tv : PyVal}
    (h : lookupKey r "timestamp" = some tv) (n1 n2 : ℚ) :
    build_derived_from_reading n1 r = build_derived_from_reading n2 r := by
  simp [build_derived_from_reading, h]

/-! ### Claims -/


deriving instance DecidableEq for Except

/-- A reading whose derived snapshot has flame detected while every
other sensor is nominal. -/
def c1_reading : Reading :=
  [("flame_detected", PyVal.int 1), ("temperature_bmp280", PyVal.int 25),
   ("temperature_dht22", PyVal.int 25), ("humidity", PyVal.float 55)]

/-- C1.  The claim says a flame-detected snapshot makes `/api/alerts`
emit a critical, sounding flame alert with `should_alert = true`.  The
source compares the derived *boolean* `flame_detected` with the
*string* `'Yes'` (`current_data.get('flame_detected') == 'Yes'`),
which is false for both boolean values, so the flame alert can never
fire: on `c1_reading` the snapshot has `flame_detected = true` yet the
evaluation returns no alerts and `should_alert = false`; in general no
successful evaluation ever contains a flame alert.  This contradicts
the endpoint's own docstring ("Flame: Detection triggers critical
alert"). -/
theorem C1_flame_alert_never_fires :
    (build_derived_from_reading 0 c1_reading).flame_detected = true ∧
    get_alerts 0 c1_reading =
      Except.ok { alerts := [], alert_count := 0, should_alert := false } ∧
    ∀ (now : ℚ) (latest : Reading) (resp : AlertsResponse),
      get_alerts now latest = Except.ok resp →
      ∀ a ∈ resp.alerts, a.sensor_type ≠ "flame" := by
  refine ⟨by decide, by decide, ?_⟩
  intro now latest resp h a ha
  unfold get_alerts at h
  rcases ht : avg_temp_of latest with e | avg
  · rw [ht] at h
    simp at h
  rw [ht] at h
  simp only [pyEq_bool_str, Bool.false_eq_true, if_false, Except.ok.injEq] at h
  subst h
  simp only [List.nil_append, List.mem_append] at ha
  rcases ha with ((((ha | ha) | ha) | ha) | ha) <;>
    · revert ha
      split_ifs <;> intro ha <;> simp_all

/-- C2.  The claim says every cached reading dict — including one
lacking the temperature keys — passes alert evaluation without
raising.  The source computes
`(current_data['temperature_bmp280'] + current_data['temperature_dht22']) / 2`
by direct indexing (unlike every surrounding rule, which uses
`.get(..., default)`), so any reading without both temperature keys
raises `KeyError` and the endpoint aborts: here shown for the empty
reading, and for every reading missing `temperature_bmp280`. -/
theorem C2_alert_eval_raises_on_missing_temperature :
    get_alerts 0 ([] : Reading) = Except.error "KeyError: temperature_bmp280" ∧
    ∀ (now : ℚ) (latest : Reading),
      lookupKey latest "temperature_bmp280" = Option.none →
      get_alerts now latest = Except.error "KeyError: temperature_bmp280" := by
  constructor
  · decide
  · intro now latest h
    simp [get_alerts, avg_temp_of, h]

theorem C2_witness :
    get_alerts 0 [("temperature_dht22", PyVal.int 20)] =
      Except.error "KeyError: temperature_bmp280" :=
  C2_alert_eval_raises_on_missing_temperature.2 0 _ rfl

/-- A reading with no `flame_detected` field and a raw flame value far
below the 2000 cutoff. -/
def c3_reading : Reading := [("flame_raw", PyVal.int 100)]

/-- C3.  The claim says an absent `flame_detected` field falls back to
thresholding `flame_raw`.  It does not: `r.get("flame_detected", 0)`
defaults the *absent* field to `0`, which the numeric branch coerces
to `false` — on `c3_reading` the raw value 100 is well below the
cutoff (so thresholding would report flame), yet the derived snapshot
says no flame. -/
theorem C3_counterexample :
    lookupKey c3_reading "flame_detected" = Option.none ∧
    numD c3_reading "flame_raw" 4095 < 2000 ∧
    (build_derived_from_reading 0 c3_reading).flame_detected = false := by
  decide

/-- C3, amended: an absent `flame_detected` field yields
`flame_detected = false` regardless of `flame_raw`; the raw-threshold
fallback (`flame_raw < 2000`) applies only when the field is present
with a value of none of the accepted types (bool, numeric, string) —
e.g. JSON null. -/
theorem C3_flame_absent_defaults_false (now : ℚ) (r : Reading) :
    (lookupKey r "flame_detected" = Option.none →
      (build_derived_from_reading now r).flame_detected = false) ∧
    (lookupKey r "flame_detected" = some PyVal.none →
      (build_derived_from_reading now r).flame_detected =
        decide (numD r "flame_raw" 4095 < 2000)) := by
  have hp : (build_derived_from_reading now r).flame_detected =
      flame_detected_of r := rfl
  constructor <;> intro h <;> rw [hp] <;> simp [flame_detected_of, h]

theorem C3_witness :
    (build_derived_from_reading 0 ([] : Reading)).flame_detected = false ∧
    (build_derived_from_reading 0
        [("flame_detected", PyVal.none), ("flame_raw", PyVal.int 100)]).flame_detected =
      decide (numD [("flame_detected", PyVal.none), ("flame_raw", PyVal.int 100)]
        "flame_raw" 4095 < 2000) :=
  ⟨(C3_flame_absent_defaults_false 0 []).1 rfl,
   (C3_flame_absent_defaults_false 0 _).2 rfl⟩

/-- C5.  For each gas channel, an upstream delta that coerces to a
non-positive number derives to exactly 0 and a positive one to the
input rounded to one decimal (`max(0, round(num(...), 1))`); the three
baselines pass through `round(..., 1)` unclamped. -/
theorem C5_gas_clamping (now : ℚ) (r : Reading) :
    (∀ x : ℚ, (lookupKey r "mq135_drop").bind tryFloat = some x →
      ((x ≤ 0 → (build_derived_from_reading now r).mq135_drop = 0) ∧
       (0 < x → (build_derived_from_reading now r).mq135_drop = round1 x))) ∧
    (∀ x : ℚ, (lookupKey r "mq2_drop").bind tryFloat = some x →
      ((x ≤ 0 → (build_derived_from_reading now r).mq2_drop = 0) ∧
       (0 < x → (build_derived_from_reading now r).mq2_drop = round1 x))) ∧
    (∀ x : ℚ, (lookupKey r "mq7_drop").bind tryFloat = some x →
      ((x ≤ 0 → (build_derived_from_reading now r).mq7_drop = 0) ∧
       (0 < x → (build_derived_from_reading now r).mq7_drop = round1 x))) ∧
    (∀ y : ℚ, (lookupKey r "mq135_baseline").bind tryFloat = some y →
      (build_derived_from_reading now r).mq135_baseline = round1 y) ∧
    (∀ y : ℚ, (lookupKey r "mq2_baseline").bind tryFloat = some y →
      (build_derived_from_reading now r).mq2_baseline = round1 y) ∧
    (∀ y : ℚ, (lookupKey r "mq7_baseline").bind tryFloat = some y →
      (build_derived_from_reading now r).mq7_baseline = round1 y) := by
  refine ⟨?_, ?_, ?_, ?_, ?_, ?_⟩
  · intro x hx
    have hp : (build_derived_from_reading now r).mq135_drop =
        max 0 (round1 (numD r "mq135_drop" 0)) := rfl
    rw [hp]
    exact gas_drop_clamp x hx
  · intro x hx
    have hp : (build_derived_from_reading now r).mq2_drop =
        max 0 (round1 (numD r "mq2_drop" 0)) := rfl
    rw [hp]
    exact gas_drop_clamp x hx
  · intro x hx
    have hp : (build_derived_from_reading now r).mq7_drop =
        max 0 (round1 (numD r "mq7_drop" 0)) := rfl
    rw [hp]
    exact gas_drop_clamp x hx
  · intro y hy
    have hp : (build_derived_from_reading now r).mq135_baseline =
        round1 (numD r "mq135_baseline" 0) := rfl
    rw [hp, numD_of_coerced 0 hy]
  · intro y hy
    have hp : (build_derived_from_reading now r).mq2_baseline =
        round1 (numD r "mq2_baseline" 0) := rfl
    rw [hp, numD_of_coerced 0 hy]
  · intro y hy
    have hp : (build_derived_from_reading now r).mq7_baseline =
        round1 (numD r "mq7_baseline" 0) := rfl
    rw [hp, numD_of_coerced 0 hy]

/-- A reading with a drifted-negative first gas channel, a positive
second channel, a zero third channel and a negative first baseline. -/
def c5_reading : Reading :=
  [("mq135_drop", PyVal.float (-3)), ("mq2_drop", PyVal.float 2),
   ("mq7_drop", PyVal.int 0), ("mq135_baseline", PyVal.float (-7/2))]

theorem C5_witness :
    (build_derived_from_reading 0 c5_reading).mq135_drop = 0 ∧
    (build_derived_from_reading 0 c5_reading).mq2_drop = round1 2 ∧
    (build_derived_from_reading 0 c5_reading).mq7_drop = 0 ∧
    (build_derived_from_reading 0 c5_reading).mq135_baseline = round1 (-7/2) := by
  have h := C5_gas_clamping 0 c5_reading
  exact ⟨(h.1 (-3) (by decide)).1 (by norm_num),
         (h.2.1 2 (by decide)).2 (by norm_num),
         (h.2.2.1 0 (by decide)).1 (by norm_num),
         h.2.2.2.1 (-7/2) (by decide)⟩

/-- C6.  The numeric coercion `num` is total: a stored value on which
`float` raises falls back to the given default, an absent key yields
the default, every outcome is either the default or the successfully
coerced number, and a Derived Snapshot exists for every input
reading. -/
theorem C6_numeric_coercion_total (now : ℚ) (r : Reading) (k : String) (d : Option ℚ) :
    (∀ v, lookupKey r k = some v → tryFloat v = Option.none → num r k d = d) ∧
    (lookupKey r k = Option.none → num r k d = d) ∧
    (num r k d = d ∨
      ∃ v q, lookupKey r k = some v ∧ tryFloat v = some q ∧ num r k d = some q) ∧
    ∃ dd : Derived, build_derived_from_reading now r = dd := by
  refine ⟨?_, ?_, ?_, ⟨_, rfl⟩⟩
  · intro v hv hf
    simp [num, hv, hf]
  · intro hv
    simp [num, hv]
  · rcases hv : lookupKey r k with _ | v
    · left
      simp [num, hv]
    · rcases hf : tryFloat v with _ | q
      · left
        simp [num, hv, hf]
      · right
        exact ⟨v, q, rfl, hf, by simp [num, hv, hf]⟩

theorem C6_witness :
    num [("x", PyVal.str "abc")] "x" (some 5) = some 5 ∧
    num [("x", PyVal.str "abc")] "y" (some 7) = some 7 :=
  ⟨(C6_numeric_coercion_total 0 [("x", PyVal.str "abc")] "x" (some 5)).1
      (PyVal.str "abc") rfl (by decide),
   (C6_numeric_coercion_total 0 [("x", PyVal.str "abc")] "y" (some 7)).2.1 rfl⟩

/-- Two upstream records carrying the same `timestamp_reading`. -/
def dup_ts_payload : List Reading :=
  [[("timestamp_reading", PyVal.str "2025-01-01T00:00:00.000000"), ("id", PyVal.int 1)],
   [("timestamp_reading", PyVal.str "2025-01-01T00:00:00.000000"), ("id", PyVal.int 2)]]

/-- C4.  The claim says the fetched batch is sorted *strictly*
descending.  A successfully parsed payload may contain two records
with equal resolved timestamps (here the same `timestamp_reading`
string, epoch 1735689600), and then adjacent sort keys are equal, so
the order is not strict. -/
theorem C4_counterexample :
    (fetch_apex_readings_core 0 0 dup_ts_payload).map sort_key =
      [1735689600, 1735689600] ∧
    ¬ List.Chain' (fun a b : ℚ => b < a) [(1735689600 : ℚ), 1735689600] := by
  constructor
  · decide
  · intro hc
    rw [List.chain'_cons] at hc
    exact absurd hc.1 (lt_irrefl _)

/-- C4, amended: the fetched batch is sorted descending
(non-increasing: records with equal resolved timestamps stay in
arrival order) by the resolved numeric timestamp, and every history
series the analysis endpoint returns is sorted ascending
(non-decreasing) by timestamp. -/
theorem C4_sorted_batches (tz now : ℚ) (items : List Reading) :
    List.Sorted ts_desc (fetch_apex_readings_core tz now items) ∧
    ∀ (now2 : ℚ) (key time_range : String) (readings : List Reading)
      (cv : Option ℚ) (out : List (ℚ × ℚ)),
      get_sensor_analysis_history now2 key time_range readings cv = some out →
      List.Sorted hist_asc out := by
  constructor
  · exact List.sorted_insertionSort ts_desc _
  · intro now2 key time_range readings cv out h
    unfold get_sensor_analysis_history at h
    rcases Option.map_eq_some'.mp h with ⟨pts, hpts, hout⟩
    by_cases hlen : (List.insertionSort hist_asc pts).length < 2
    · rw [if_pos hlen] at hout
      rw [← hout]
      simp only [List.sorted_cons, List.sorted_singleton, List.mem_singleton]
      refine ⟨?_, by simp⟩
      intro b hb
      rw [hb]
      show (cv.getD 0, now2 - 10).2 ≤ (cv.getD 0, now2).2
      simp only
      linarith
    · rw [if_neg hlen] at hout
      rw [← hout]
      exact List.sorted_insertionSort hist_asc pts

theorem C4_witness :
    List.Sorted ts_desc (fetch_apex_readings_core 0 0 []) ∧
    List.Sorted hist_asc [((0:ℚ), (0:ℚ) - 10), ((0:ℚ), 0)] :=
  ⟨(C4_sorted_batches 0 0 []).1,
   (C4_sorted_batches 0 0 []).2 0 "temperature" "hours" [] Option.none
     [((0:ℚ), (0:ℚ) - 10), ((0:ℚ), 0)] (by decide)⟩

/-- C7.  An empty poll cycle leaves the cache state completely
unchanged; once the cache holds a batch, a read returns exactly that
batch with an age-encoding label — `cache_stale_...` from age 10 s on,
`cache_age_...` below — and `/api/sensor-data` answers 200, never the
no-data error. -/
theorem C7_cache_retention (s : SmartCache) (d : List Reading) (t now now2 : ℚ)
    (h1 : s.data = some d) (h2 : s.timestamp = some t) :
    continuous_apex_poller_step s [] now2 = s ∧
    (get_cached_apex_or_fetch s now).1 = some d ∧
    (get_cached_apex_or_fetch s now).2 =
      (if 10 ≤ now - t then "cache_stale_" ++ fmt_age (now - t) ++ "s"
       else "cache_age_" ++ fmt_age (now - t) ++ "s") ∧
    (d ≠ [] → ∃ b, get_sensor_data s now = ApiResult.ok b) := by
  have hc : get_cached_apex_or_fetch s now =
      (some d, if 10 ≤ now - t then "cache_stale_" ++ fmt_age (now - t) ++ "s"
               else "cache_age_" ++ fmt_age (now - t) ++ "s") := by
    unfold get_cached_apex_or_fetch
    rw [h1, h2]
    dsimp only
    by_cases hlt : now - t < 10
    · rw [if_pos hlt, if_neg (by linarith)]
    · rw [if_neg hlt, if_pos (by linarith)]
  refine ⟨by simp [continuous_apex_poller_step], by rw [hc], by rw [hc], ?_⟩
  intro hd
  rcases d with _ | ⟨latest, rest⟩
  · exact absurd rfl hd
  · exact ⟨_, by unfold get_sensor_data; rw [hc]⟩

/-- A populated cache captured at time 0. -/
def c7_cache : SmartCache :=
  { data := some [[("humidity", PyVal.float 50), ("timestamp", PyVal.float 0)]],
    timestamp := some 0 }

theorem C7_witness :
    continuous_apex_poller_step c7_cache [] 99 = c7_cache ∧
    (get_cached_apex_or_fetch c7_cache 12).1 =
      some [[("humidity", PyVal.float 50), ("timestamp", PyVal.float 0)]] ∧
    (get_cached_apex_or_fetch c7_cache 12).2 = "cache_stale_12s" := by
  have h := C7_cache_retention c7_cache
    [[("humidity", PyVal.float 50), ("timestamp", PyVal.float 0)]] 0 12 99 rfl rfl
  refine ⟨h.1, h.2.1, ?_⟩
  rw [h.2.2.1]
  decide

/-- C8.  While no poll has ever succeeded the cache read yields the
distinct `(None, "no_data")` outcome and `/api/sensor-data` returns
the 503 data-unavailable body — never a zero-filled snapshot. -/
theorem C8_no_data_outcome (s : SmartCache) (now : ℚ) (h : s.data = Option.none) :
    get_cached_apex_or_fetch s now = (Option.none, "no_data") ∧
    get_sensor_data s now = ApiResult.err503 apex_unavailable_body := by
  have hc : get_cached_apex_or_fetch s now = (Option.none, "no_data") := by
    cases hts : s.timestamp <;> simp [get_cached_apex_or_fetch, h, hts]
  exact ⟨hc, by simp [get_sensor_data, hc]⟩

theorem C8_witness :
    get_cached_apex_or_fetch { data := Option.none, timestamp := Option.none } 3 =
      (Option.none, "no_data") ∧
    get_sensor_data { data := Option.none, timestamp := Option.none } 3 =
      ApiResult.err503 apex_unavailable_body :=
  C8_no_data_outcome { data := Option.none, timestamp := Option.none } 3 rfl

/-- A populated cache (one reading, captured at time 0) for the
idempotence claim. -/
def c9_cache : SmartCache :=
  { data := some [[("humidity", PyVal.float 50), ("timestamp", PyVal.float 0)]],
    timestamp := some 0 }

/-- C9.  The claim says two `/api/sensor-data` reads with no
intervening poll return responses equal in *every* field.  The
`_cache_status` field encodes the read-time age, so two reads of the
same cache state at different times differ in it (here
`cache_age_5s` vs `cache_stale_15s`). -/
theorem C9_counterexample :
    api_field (get_sensor_data c9_cache 5) "_cache_status" ≠
      api_field (get_sensor_data c9_cache 15) "_cache_status" := by
  decide

/-- C9, amended: with no intervening poll (same cache state), two
reads both succeed and agree on every field except the
`_cache_status` freshness annotation; in particular the whole derived
snapshot and the raw-reading fields are identical. -/
theorem C9_idempotent_modulo_cache_status (s : SmartCache) (now1 now2 : ℚ)
    (latest : Reading) (rest : List Reading) (t : ℚ) (tv : PyVal)
    (h1 : s.data = some (latest :: rest)) (h2 : s.timestamp = some t)
    (h3 : lookupKey latest "timestamp" = some tv) :
    ∃ b1 b2, get_sensor_data s now1 = ApiResult.ok b1 ∧
      get_sensor_data s now2 = ApiResult.ok b2 ∧
      ∀ k, k ≠ "_cache_status" → lookupKey b1 k = lookupKey b2 k := by
  have key : ∀ n : ℚ, ∃ lbl,
      get_cached_apex_or_fetch s n = (some (latest :: rest), lbl) := by
    intro n
    unfold get_cached_apex_or_fetch
    rw [h1, h2]
    dsimp only
    by_cases hlt : n - t < 10
    · rw [if_pos hlt]
      exact ⟨_, rfl⟩
    · rw [if_neg hlt]
      exact ⟨_, rfl⟩
  obtain ⟨l1, hl1⟩ := key now1
  obtain ⟨l2, hl2⟩ := key now2
  have hb : build_derived_from_reading now1 latest =
      build_derived_from_reading now2 latest :=
    build_derived_now_independent h3 now1 now2
  refine ⟨_, _, by unfold get_sensor_data; rw [hl1],
          by unfold get_sensor_data; rw [hl2], ?_⟩
  intro k hk
  show lookupKey (("_cache_status", PyVal.str l1) ::
      ("_data_source", PyVal.str "apex") ::
      (derived_dict (build_derived_from_reading now1 latest) ++
        latest.filter (fun p => ! startsWithUnderscore p.1))) k =
    lookupKey (("_cache_status", PyVal.str l2) ::
      ("_data_source", PyVal.str "apex") ::
      (derived_dict (build_derived_from_reading now2 latest) ++
        latest.filter (fun p => ! startsWithUnderscore p.1))) k
  rw [hb]
  conv_lhs => rw [lookupKey]
  conv_rhs => rw [lookupKey]
  rw [if_neg (fun hc => hk hc.symm), if_neg (fun hc => hk hc.symm)]

theorem C9_witness :
    ∃ b1 b2, get_sensor_data c9_cache 5 = ApiResult.ok b1 ∧
      get_sensor_data c9_cache 15 = ApiResult.ok b2 ∧
      ∀ k, k ≠ "_cache_status" → lookupKey b1 k = lookupKey b2 k :=
  C9_idempotent_modulo_cache_status c9_cache 5 15
    [("humidity", PyVal.float 50), ("timestamp", PyVal.float 0)] [] 0
    (PyVal.float 0) rfl rfl rfl

/-- C10.  Every history series the analysis endpoint returns has at
least two points, and whenever fewer than two points can be built
from the cached readings the series is exactly the two synthetic
points carrying the current value (0.0 when undefined) at
`now - 10` and `now`.  (Every time range resolves to at least 5
points, so fewer than two points means fewer than two readings.) -/
theorem C10_history_always_two_points (now : ℚ) (key time_range : String)
    (readings : List Reading) (cv : Option ℚ) (out : List (ℚ × ℚ))
    (h : get_sensor_analysis_history now key time_range readings cv = some out) :
    2 ≤ out.length ∧
    (readings.length < 2 → out = [(cv.getD 0, now - 10), (cv.getD 0, now)]) := by
  unfold get_sensor_analysis_history at h
  rcases Option.map_eq_some'.mp h with ⟨pts, hpts, hout⟩
  have hlen : pts.length = (readings.take (data_points_for time_range)).length :=
    mapM_option_length hpts
  have hslen : (List.insertionSort hist_asc pts).length = pts.length :=
    List.length_insertionSort hist_asc pts
  by_cases hc : (List.insertionSort hist_asc pts).length < 2
  · rw [if_pos hc] at hout
    rw [← hout]
    exact ⟨by simp, fun _ => rfl⟩
  · rw [if_neg hc] at hout
    push_neg at hc
    constructor
    · rw [← hout]
      exact hc
    · intro hr
      exfalso
      rw [hslen, hlen, List.length_take] at hc
      have h2 := two_le_data_points time_range
      omega

/-- A single cached reading: one point is built, so the series is
fabricated. -/
def c10_reading : Reading := [("humidity", PyVal.float 50), ("timestamp", PyVal.float 3)]

theorem C10_witness :
    2 ≤ ([((50:ℚ), (5:ℚ) - 10), ((50:ℚ), 5)] : List (ℚ × ℚ)).length ∧
    ([c10_reading].length < 2 →
      [((50:ℚ), (5:ℚ) - 10), ((50:ℚ), 5)] =
        [(((some (50:ℚ)).getD 0), (5:ℚ) - 10), ((some (50:ℚ)).getD 0, 5)]) :=
  C10_history_always_two_points 5 "humidity" "hours" [c10_reading] (some 50)
    [((50:ℚ), (5:ℚ) - 10), ((50:ℚ), 5)] (by decide)
